import Mathlib

/-!
Verification model of the `live-stream` repository's playback core:
`playlist.py` (catalog sequencing + checkpoint persistence) and
`streamer.py` (playback supervisor loop, retry/backoff, diagnosis,
recovery).  Every definition below is a shallow embedding translated
directly from the named source function; positions and wall-clock
times (Python floats) are modelled as exact rationals, and the
checkpoint file as an `Option Progress` value threaded explicitly.
-/

namespace LiveStream

/-- VideoItem from `sources/__init__.py`: display name, encoder locator and
optional auth headers. -/
structure VideoItem where
  name : String
  ffmpegInput : String
  headers : List (String × String) := []
deriving DecidableEq, Repr

/-- The JSON record `playlist.py` writes to `progress.json`:
`{"index": ..., "video_name": ..., "position": ...}`. -/
structure Progress where
  index : Nat
  videoName : String
  position : ℚ
deriving DecidableEq, Repr

/-- Round a rational to the nearest integer, ties to even — the rounding
CPython's built-in `round` applies to the exact value of its float
argument.  (`Int.fdiv num den` is the floor of the fraction, since the
denominator is positive.) -/
def roundHalfEven (x : ℚ) : ℤ :=
  let f : ℤ := Int.fdiv x.num x.den
  if x - f < 1/2 then f
  else if 1/2 < x - f then f + 1
  else if f % 2 = 0 then f else f + 1

/-- Python's `round(x, 1)` from `Playlist._save_progress`. -/
def round1 (x : ℚ) : ℚ := (roundHalfEven (10 * x) : ℚ) / 10

/-- Mutable state of `playlist.Playlist`: `_videos`, `_index`,
`_resume_position`.  (The lock serializes access; the sequential model
works on the state directly.  The shuffle of `random` mode is an input
permutation of the catalog, so `reload` below takes the already-shuffled
concatenation of the sources' listings.) -/
structure PlaylistState where
  videos : List VideoItem
  index : Nat
  resumePosition : ℚ
deriving DecidableEq, Repr

namespace Playlist

/-- Model of `Playlist._save_progress(position)`: no write when the sequence is
empty; otherwise writes `{"index": _index, "video_name":
_videos[_index-1].name if _index > 0 else "", "position":
round(position, 1)}`.  An out-of-range `_videos[_index-1]` raises inside
the `try` and is swallowed, leaving the file unchanged. -/
def saveProgress (st : PlaylistState) (position : ℚ) (file : Option Progress) :
    Option Progress :=
  if st.videos.isEmpty then file
  else if st.index = 0 then some ⟨0, "", round1 position⟩
  else
    match st.videos[st.index - 1]? with
    | some v => some ⟨st.index, v.name, round1 position⟩
    | none => file

/-- Model of `Playlist._restore_progress`: if a progress file exists, first look
for an item whose name equals the saved name (first match wins) and move
the cursor there with the saved one-shot resume position; otherwise fall
back to the saved index if it is in bounds; otherwise change nothing. -/
def restoreProgress (file : Option Progress) (st : PlaylistState) : PlaylistState :=
  match file with
  | none => st
  | some p =>
    match st.videos.findIdx? (fun v => v.name == p.videoName) with
    | some i => { st with index := i, resumePosition := p.position }
    | none =>
      if p.index < st.videos.length then
        { st with index := p.index, resumePosition := p.position }
      else st

/-- Model of `Playlist.reload()`: replace the sequence with the concatenated
(and, in `random` mode, shuffled) source listings, reset the cursor to
0, and—when the new sequence is non-empty—attempt checkpoint
restoration from the progress file. -/
def reload (newVideos : List VideoItem) (file : Option Progress)
    (st : PlaylistState) : PlaylistState :=
  let st1 : PlaylistState := { st with videos := newVideos, index := 0 }
  if newVideos.isEmpty then st1 else restoreProgress file st1

/-- Model of `Playlist.__init__`: empty state (`_videos = []`, `_index = 0`,
`_resume_position = 0.0`) followed by `reload()`. -/
def init (videos : List VideoItem) (file : Option Progress) : PlaylistState :=
  reload videos file ⟨[], 0, 0⟩

/-- Result of one `Playlist.next()` call.  `crash` is the uncaught
`IndexError` raised by `self._videos[self._index]` when the cursor
equals the sequence length. -/
inductive NextResult
  | item (v : VideoItem)
  | empty
  | crash
deriving DecidableEq, Repr

/-- Full outcome of `Playlist.next()`: returned value, new in-memory
state, new progress file, and whether a background `reload()` thread was
spawned (round complete). -/
structure NextOut where
  result : NextResult
  state : PlaylistState
  file : Option Progress
  reloadTriggered : Bool
deriving Repr

/-- Model of `Playlist.next()`.  Non-empty sequence: read `_videos[_index]`
(IndexError if the cursor equals the length), advance the cursor, save
progress (position 0), and spawn an asynchronous `reload()` when the
cursor reached the length.  Empty sequence: run `reload()` inline (with
`reloadVideos` the fresh source listing); if still empty return absent,
otherwise force the cursor to 1, save progress and return the first
item. -/
def next (st : PlaylistState) (file : Option Progress)
    (reloadVideos : List VideoItem) : NextOut :=
  if st.videos.isEmpty then
    let st1 := reload reloadVideos file st
    if h : st1.videos.isEmpty then ⟨.empty, st1, file, false⟩
    else
      let st2 : PlaylistState := { st1 with index := 1 }
      let file2 := saveProgress st2 0 file
      ⟨.item (st1.videos.head (by simpa [List.isEmpty_iff] using h)), st2, file2, false⟩
  else
    match st.videos[st.index]? with
    | none => ⟨.crash, st, file, false⟩
    | some v =>
      let st1 : PlaylistState := { st with index := st.index + 1 }
      let file1 := saveProgress st1 0 file
      ⟨.item v, st1, file1, decide (st.videos.length ≤ st1.index)⟩

/-- Composition of `Playlist.next()` with the asynchronous wrap `reload()` applied
immediately afterwards (the sequential schedule in which the background
thread runs before anything else touches the playlist), reloading from
the same unchanged catalog. -/
def nextSync (st : PlaylistState) (file : Option Progress)
    (reloadVideos : List VideoItem) : NextOut :=
  let o := next st file reloadVideos
  if o.reloadTriggered then
    { o with state := reload reloadVideos o.file o.state }
  else o

/-- Model of `Playlist.jump_to(index)`: bounds-checked cursor override that also
saves progress. -/
def jumpTo (st : PlaylistState) (file : Option Progress) (i : Nat) :
    Option VideoItem × PlaylistState × Option Progress :=
  match st.videos[i]? with
  | some v =>
    let st1 : PlaylistState := { st with index := i }
    (some v, st1, saveProgress st1 0 file)
  | none => (none, st, file)

/-- Model of `Playlist.consume_resume_position()`: read-then-clear one-shot
resume offset. -/
def consumeResumePosition (st : PlaylistState) : ℚ × PlaylistState :=
  (st.resumePosition, { st with resumePosition := 0 })

end Playlist

/-! ## Playback supervisor (`streamer.py`) -/

/-- The supervisor's mutable runtime fields (`Streamer.__init__`),
restricted to those the main loop, the output reader and the diagnosis
machinery touch. -/
structure StreamerState where
  running : Bool
  skipRequested : Bool
  currentVideo : String
  videosPlayed : Nat
  totalFailures : Nat
  lastDiagnosisTime : ℚ
  duration : ℚ
  currentTime : ℚ
  progress : ℚ
  bitrate : String
  speed : String
  seekOffset : ℚ
deriving DecidableEq, Repr

/-- The `resilience` configuration block read in `Streamer.start`:
`retry_delay` (base), `max_retry_delay`, `max_retries` (0 = unbounded). -/
structure Resilience where
  retryDelay : ℚ
  maxRetryDelay : ℚ
  maxRetries : Nat
deriving DecidableEq, Repr

namespace Streamer

/-- Response of the control API's `startLive` call as
`_attempt_auto_restart` discriminates it: `code == 0` (success payload),
`code == 60024` / a `qr` payload (identity challenge), any other body,
or a raised network error. -/
inductive StartLiveResp
  | success (rtmpUrl streamKey : String)
  | challenge
  | other
  | netError

/-- Outcome of the face-auth polling loop: verified at iteration `k`,
aborted at iteration `k` because the run flag was false, or timed out
after exhausting all 120 attempts. -/
inductive PollResult
  | verified (k : Nat)
  | stoppedEarly (k : Nat)
  | timeout
deriving DecidableEq, Repr

/-- One iteration of the verification poll in `_attempt_auto_restart`
(`while not is_verified and attempts < max_attempts`): check the run
flag, issue the status request (a raised request error counts as not
verified), break on success, else sleep 1 second and increment
`attempts`.  `fuel` is `max_attempts - attempts`, `k` the current
attempt number. -/
def pollFaceGo (running verified : Nat → Bool) : Nat → Nat → PollResult
  | 0, _ => .timeout
  | fuel + 1, k =>
    if ¬ running k then .stoppedEarly k
    else if verified k then .verified k
    else pollFaceGo running verified fuel (k + 1)

/-- The verification poll with the source's `max_attempts = 120`. -/
def pollFace (running verified : Nat → Bool) : PollResult :=
  pollFaceGo running verified 120 0

/-- External inputs of one `_trigger_diagnosis` run: the three check
results the caller inspects, whether a `bilibili.cookie` is configured,
whether `bili_jct` can be extracted from it, and the control-API
responses/poll behaviour recovery would observe. -/
structure DiagEnv where
  rtmpOk : Bool
  keyOk : Bool
  liveOk : Bool
  cookieConfigured : Bool
  csrfFound : Bool
  startLive1 : StartLiveResp
  pollRunning : Nat → Bool
  pollVerified : Nat → Bool
  startLive2 : StartLiveResp

/-- Model of `_apply_new_stream_config`: false only when the response payload
lacks the endpoint or the key; persisting to `config.yaml` is
best-effort and both the success and the failure of the write return
true. -/
def applyNewStreamConfig (rtmpUrl streamKey : String) : Bool :=
  rtmpUrl ≠ "" && streamKey ≠ ""

/-- Model of `_attempt_auto_restart`: fail without `bili_jct`; on a success
response apply the new config; on a challenge response poll the
verification endpoint and, only if verified, retry `startLive` once; any
other response or error fails. -/
def attemptAutoRestart (e : DiagEnv) : Bool :=
  if ¬ e.csrfFound then false
  else
    match e.startLive1 with
    | .success url key => applyNewStreamConfig url key
    | .challenge =>
      match pollFace e.pollRunning e.pollVerified with
      | .verified _ =>
        match e.startLive2 with
        | .success url key => applyNewStreamConfig url key
        | _ => false
      | _ => false
    | .other => false
    | .netError => false

/-- The escalation decision at the end of `_trigger_diagnosis`: if the
`rtmp`, `stream_key` or `live_status` check failed, attempt automated
recovery when a cookie is configured (recommending a stop exactly when
recovery fails), else recommend a stop; with all three checks passing,
never recommend a stop. -/
def diagShouldStop (e : DiagEnv) : Bool :=
  if !e.rtmpOk || !e.keyOk || !e.liveOk then
    if e.cookieConfigured then !(attemptAutoRestart e) else true
  else false

/-- Result of one `_trigger_diagnosis` call: its return value
(should-stop advice), the updated state, and whether a report was
actually produced (false when the cooldown suppressed the run). -/
structure DiagOut where
  shouldStop : Bool
  state : StreamerState
  ran : Bool
deriving Repr

/-- Model of `_trigger_diagnosis(video, reason)`: inside the 60-second cooldown
window the call only logs — no report, no timestamp update, returns
false; otherwise it stamps `_last_diagnosis_time := now`, runs the
report and returns the escalation decision.  The trigger reason plays no
role in the cooldown. -/
def triggerDiagnosis (st : StreamerState) (now : ℚ) (e : DiagEnv) : DiagOut :=
  if now - st.lastDiagnosisTime < 60 then ⟨false, st, false⟩
  else ⟨diagShouldStop e, { st with lastDiagnosisTime := now }, true⟩

/-- One telemetry line of the encode process's combined output as the
four regexes of `_read_output` see it: the optional `Duration:`,
`time=`, `bitrate=` and `speed=` captures (hours, minutes, seconds,
centiseconds for the first two) plus the wall-clock instant `arrival` at
which the line is processed. -/
structure TLine where
  dur : Option (Nat × Nat × Nat × Nat) := none
  tim : Option (Nat × Nat × Nat × Nat) := none
  br : Option String := none
  sp : Option String := none
  arrival : ℚ := 0

/-- The seconds value `int(g1)*3600 + int(g2)*60 + int(g3) + int(g4)/100` from
`_read_output`. -/
def hmsToSecs (t : Nat × Nat × Nat × Nat) : ℚ :=
  t.1 * 3600 + t.2.1 * 60 + t.2.2.1 + (t.2.2.2 : ℚ) / 100

/-- State threaded through `_read_output`: supervisor fields, the
`last_progress_save` instant, and the positions passed to
`playlist.save_progress_with_position` so far. -/
structure ReadState where
  st : StreamerState
  lastSave : ℚ
  saves : List ℚ

/-- Processing of one output line by `_read_output`: stop when the run
flag is down; update `duration`; on a `time=` capture set
`current_time := _seek_offset + relative`, recompute `progress`, and
persist the absolute position if 10 seconds elapsed since the last save;
then update `bitrate` and `speed`. -/
def readOutputStep (rs : ReadState) (ln : TLine) : ReadState :=
  if ¬ rs.st.running then rs
  else
    let st := rs.st
    let st :=
      match ln.dur with
      | some d => { st with duration := hmsToSecs d }
      | none => st
    match ln.tim with
    | some t =>
      let current := st.seekOffset + hmsToSecs t
      let st :=
        { st with
          currentTime := current
          progress := if 0 < st.duration then min (current / st.duration * 100) 100
                      else st.progress }
      let doSave := 10 ≤ ln.arrival - rs.lastSave
      let st := { st with bitrate := ln.br.getD st.bitrate, speed := ln.sp.getD st.speed }
      { st := st
        lastSave := if doSave then ln.arrival else rs.lastSave
        saves := if doSave then rs.saves ++ [current] else rs.saves }
    | none =>
      let st := { st with bitrate := ln.br.getD st.bitrate, speed := ln.sp.getD st.speed }
      { rs with st := st }

/-- Model of `_read_output`: fold over the process output; `startTime` is the
`time.time()` that initializes `last_progress_save`. -/
def readOutput (st : StreamerState) (startTime : ℚ) (lines : List TLine) : ReadState :=
  lines.foldl readOutputStep ⟨st, startTime, []⟩

/-- What the supervisor loop does after classifying a process exit (or
an exception). -/
inductive ExitAction
  | nextItem
  | stopped
  | retry (delay : ℚ)
deriving DecidableEq, Repr

/-- Full effect of the exit-classification block of `Streamer.start`
(lines 127–176): new state, per-item retry counter, resume offset for
the next attempt of the same item, control-flow action, number of
diagnosis-trigger invocations and of diagnosis reports actually run,
positions handed to `save_progress_with_position`, and the sleeps
performed. -/
structure ClassifyResult where
  state : StreamerState
  videoRetry : Nat
  resumePos : ℚ
  action : ExitAction
  diagTriggers : Nat
  diagRuns : Nat
  saves : List ℚ
  sleeps : List ℚ
deriving Repr

/-- The exit-classification block of `Streamer.start`.  `outcome` is
`some returncode` for a process exit and `none` for an uncaught
exception in the spawn/read/wait block.  On exit: a pending skip clears
the flag and advances; exit code 0 counts the item and zeroes the
cumulative failure counter; a non-zero exit increments both counters,
persists `current_time` as the resume offset, then applies the
max-retries ceiling (final diagnosis trigger, stop), the
every-5-failures periodic diagnosis (stop only on its advice) and the
exponential backoff sleep.  On an exception: only the cumulative counter
is incremented, `current_time` is persisted, and the loop sleeps the
base delay. -/
def classify (cfg : Resilience) (st : StreamerState) (videoRetry : Nat)
    (resumePos : ℚ) (outcome : Option Int) (now : ℚ) (env : DiagEnv) :
    ClassifyResult :=
  match outcome with
  | some returncode =>
    if st.skipRequested then
      { state := { st with skipRequested := false }, videoRetry := videoRetry
        resumePos := resumePos, action := .nextItem, diagTriggers := 0
        diagRuns := 0, saves := [], sleeps := [] }
    else if returncode = 0 then
      { state := { st with videosPlayed := st.videosPlayed + 1, totalFailures := 0 }
        videoRetry := videoRetry, resumePos := resumePos, action := .nextItem
        diagTriggers := 0, diagRuns := 0, saves := [], sleeps := [] }
    else
      let vr := videoRetry + 1
      let st1 : StreamerState := { st with totalFailures := st.totalFailures + 1 }
      let newResume := st1.currentTime
      if 0 < cfg.maxRetries ∧ cfg.maxRetries ≤ st1.totalFailures then
        let d := triggerDiagnosis st1 now env
        { state := { d.state with running := false }, videoRetry := vr
          resumePos := newResume, action := .stopped, diagTriggers := 1
          diagRuns := if d.ran then 1 else 0, saves := [newResume], sleeps := [] }
      else if 5 ≤ st1.totalFailures ∧ st1.totalFailures % 5 = 0 then
        let d := triggerDiagnosis st1 now env
        if d.shouldStop then
          { state := { d.state with running := false }, videoRetry := vr
            resumePos := newResume, action := .stopped, diagTriggers := 1
            diagRuns := if d.ran then 1 else 0, saves := [newResume], sleeps := [] }
        else
          let delay := min (cfg.retryDelay * 2 ^ (vr - 1)) cfg.maxRetryDelay
          { state := d.state, videoRetry := vr, resumePos := newResume
            action := .retry delay, diagTriggers := 1
            diagRuns := if d.ran then 1 else 0, saves := [newResume]
            sleeps := [delay] }
      else
        let delay := min (cfg.retryDelay * 2 ^ (vr - 1)) cfg.maxRetryDelay
        { state := st1, videoRetry := vr, resumePos := newResume
          action := .retry delay, diagTriggers := 0, diagRuns := 0
          saves := [newResume], sleeps := [delay] }
  | none =>
    let st1 : StreamerState := { st with totalFailures := st.totalFailures + 1 }
    { state := st1, videoRetry := videoRetry, resumePos := st1.currentTime
      action := .retry cfg.retryDelay, diagTriggers := 0, diagRuns := 0
      saves := [st1.currentTime], sleeps := [cfg.retryDelay] }

/-- Lines 105–118 of `Streamer.start`, run before each spawn of the same
item: reset the telemetry fields and set `_seek_offset` to the resume
position the attempt starts from. -/
def attemptStart (st : StreamerState) (videoName : String) (resumePos : ℚ) :
    StreamerState :=
  { st with
    currentVideo := videoName, duration := 0, currentTime := 0, progress := 0
    bitrate := "", speed := "", seekOffset := resumePos }

/-- Lines 95–103 of `Streamer.start`, run once per item taken from the
playlist: the per-item retry counter restarts at 0 and the one-shot
resume position is consumed. -/
def loadItem (pl : PlaylistState) : ℚ × PlaylistState × Nat :=
  let c := Playlist.consumeResumePosition pl
  (c.1, c.2, 0)

/-- Model of `Streamer.skip()`: only with a live process, set the skip flag (and
terminate the process). -/
def skip (processAlive : Bool) (st : StreamerState) : StreamerState :=
  if processAlive then { st with skipRequested := true } else st

/-- One spawn/read/classify attempt of the inner retry loop: the
process outcome, the wall clocks, and the telemetry lines it produced. -/
structure AttemptSpec where
  lines : List TLine := []
  readStart : ℚ := 0
  out : Option Int := some 1
  now : ℚ := 0
  env : DiagEnv

/-- The inner retry loop of `Streamer.start` (`while self._running`
around one item), driven by a list of attempt outcomes: returns the
final state, the number of processes spawned, and the concatenated sleep
trace.  A `nextItem` or `stopped` classification leaves the loop. -/
def runInner (cfg : Resilience) (videoName : String) :
    StreamerState → Nat → ℚ → List AttemptSpec → StreamerState × Nat × List ℚ
  | st, _, _, [] => (st, 0, [])
  | st, vr, rp, a :: rest =>
    if st.running then
      let st1 := attemptStart st videoName rp
      let rs := readOutput st1 a.readStart a.lines
      let r := classify cfg rs.st vr rp a.out a.now a.env
      match r.action with
      | .retry _ =>
        let (stF, n, ss) := runInner cfg videoName r.state r.videoRetry r.resumePos rest
        (stF, n + 1, r.sleeps ++ ss)
      | _ => (r.state, 1, r.sleeps)
    else (st, 0, [])

end Streamer

end LiveStream

open LiveStream LiveStream.Playlist LiveStream.Streamer

/-! ## Shared concrete sample data -/

/-- Sample catalog item used by concrete runs. -/
def itemA : VideoItem := ⟨"a", "/videos/a.mp4", []⟩

/-- Second sample catalog item. -/
def itemB : VideoItem := ⟨"b", "/videos/b.mp4", []⟩

/-! ## Claims about the Playlist -/

/-- A list with a member at some position is not empty. -/
theorem getElem?_some_not_isEmpty {l : List VideoItem} {k : Nat} {v : VideoItem}
    (h : l[k]? = some v) : l.isEmpty = false := by
  cases l with
  | nil => simp at h
  | cons a t => rfl

/-- C1 (amended): if `save_progress` is called with position `p` while
item `X` is current (the cursor is one past `X`), the checkpoint records
`X`'s name and `p` rounded to one decimal (Python's `round(p, 1)`);
after a fresh reload, restoration first searches for an item named like
`X` and on a (first) match at index `i` sets the cursor to `i` and the
one-shot resume position to `round1 p`; only when no name matches and
the saved cursor is within bounds does it fall back to the saved cursor
with resume position `round1 p`; otherwise it restores nothing (cursor
0, resume position 0 of the fresh state). -/
theorem C1_checkpoint_roundtrip (st : PlaylistState) (file0 : Option Progress)
    (p : ℚ) (newVideos : List VideoItem) (X : VideoItem)
    (hcur : st.videos[st.index - 1]? = some X) (hpos : 0 < st.index) :
    Playlist.saveProgress st p file0 = some ⟨st.index, X.name, round1 p⟩ ∧
    (∀ i, newVideos.findIdx? (fun v => v.name == X.name) = some i →
      (Playlist.reload newVideos (Playlist.saveProgress st p file0) ⟨[], 0, 0⟩).index = i ∧
      (Playlist.reload newVideos (Playlist.saveProgress st p file0) ⟨[], 0, 0⟩).resumePosition
        = round1 p) ∧
    (newVideos.findIdx? (fun v => v.name == X.name) = none →
      (st.index < newVideos.length →
        (Playlist.reload newVideos (Playlist.saveProgress st p file0) ⟨[], 0, 0⟩).index
          = st.index ∧
        (Playlist.reload newVideos (Playlist.saveProgress st p file0) ⟨[], 0, 0⟩).resumePosition
          = round1 p) ∧
      (newVideos.length ≤ st.index →
        (Playlist.reload newVideos (Playlist.saveProgress st p file0) ⟨[], 0, 0⟩).index = 0 ∧
        (Playlist.reload newVideos (Playlist.saveProgress st p file0) ⟨[], 0, 0⟩).resumePosition
          = 0)) := by
  have hne : st.videos.isEmpty = false := getElem?_some_not_isEmpty hcur
  have hiz : st.index ≠ 0 := Nat.pos_iff_ne_zero.mp hpos
  have hfile : Playlist.saveProgress st p file0 = some ⟨st.index, X.name, round1 p⟩ := by
    simp [Playlist.saveProgress, hne, hiz, hcur]
  refine ⟨hfile, ?_, ?_⟩
  · intro i hi
    have hnv : newVideos.isEmpty = false := by
      cases newVideos with
      | nil => simp [List.findIdx?] at hi
      | cons a t => rfl
    simp [Playlist.reload, Playlist.restoreProgress, hfile, hnv, hi]
  · intro hnone
    constructor
    · intro hlt
      have hnv : newVideos.isEmpty = false := by
        cases newVideos with
        | nil => simp at hlt
        | cons a t => rfl
      simp [Playlist.reload, Playlist.restoreProgress, hfile, hnv, hnone, hlt]
    · intro hge
      by_cases hnv : newVideos.isEmpty
      · simp [Playlist.reload, hnv]
      · simp [Playlist.reload, Playlist.restoreProgress, hfile, hnv, hnone,
              Nat.not_lt.mpr hge]

/-- C1 counterexample: `save_progress(0.25)` on item `a` stores
`round(0.25, 1) = 0.2`, so the restored one-shot resume position is
`0.2`, not the `0.25` the claim promises. -/
theorem C1_counterexample :
    (Playlist.reload [itemA]
        (Playlist.saveProgress ⟨[itemA], 1, 0⟩ (1/4) none) ⟨[], 0, 0⟩).resumePosition
      = 1/5 ∧ ((1 : ℚ)/5 ≠ 1/4) := by with_unfolding_all decide

/-- Concrete instance of `C1_checkpoint_roundtrip`: item `b` current at
cursor 2, position 1/2, catalog reloaded in reversed order — the name
match moves the cursor to `b`'s new index 0 with resume position
`round1 (1/2) = 1/2`. -/
theorem C1_witness :
    (Playlist.reload [itemB, itemA]
        (Playlist.saveProgress ⟨[itemA, itemB], 2, 0⟩ (1/2) none) ⟨[], 0, 0⟩).index = 0 ∧
    (Playlist.reload [itemB, itemA]
        (Playlist.saveProgress ⟨[itemA, itemB], 2, 0⟩ (1/2) none) ⟨[], 0, 0⟩).resumePosition
      = round1 (1/2) :=
  (C1_checkpoint_roundtrip ⟨[itemA, itemB], 2, 0⟩ none (1/2) [itemB, itemA] itemB
    (by decide) (by decide)).2.1 0 (by decide)

/-- C2: the code does not wrap the cursor to 0.  On the fresh playlist
`[a, b]`, the second `next()` completes the round and triggers the
reload, but the reload's checkpoint restoration name-matches the item
just saved by `next()` (the last item of the round) and moves the cursor
back to index 1 — so the third `next()` returns `b` again instead of
`a`, and the supervisor replays the final item indefinitely. -/
theorem C2_wrap_restores_last_item :
    (Playlist.nextSync (Playlist.init [itemA, itemB] none) none [itemA, itemB]).result
      = .item itemA ∧
    (Playlist.nextSync (Playlist.init [itemA, itemB] none) none [itemA, itemB]).reloadTriggered
      = false ∧
    ((Playlist.nextSync
        (Playlist.nextSync (Playlist.init [itemA, itemB] none) none [itemA, itemB]).state
        (Playlist.nextSync (Playlist.init [itemA, itemB] none) none [itemA, itemB]).file
        [itemA, itemB]).result = .item itemB ∧
     (Playlist.nextSync
        (Playlist.nextSync (Playlist.init [itemA, itemB] none) none [itemA, itemB]).state
        (Playlist.nextSync (Playlist.init [itemA, itemB] none) none [itemA, itemB]).file
        [itemA, itemB]).reloadTriggered = true ∧
     (Playlist.nextSync
        (Playlist.nextSync (Playlist.init [itemA, itemB] none) none [itemA, itemB]).state
        (Playlist.nextSync (Playlist.init [itemA, itemB] none) none [itemA, itemB]).file
        [itemA, itemB]).state.index = 1 ∧
     (Playlist.nextSync
        (Playlist.nextSync
          (Playlist.nextSync (Playlist.init [itemA, itemB] none) none [itemA, itemB]).state
          (Playlist.nextSync (Playlist.init [itemA, itemB] none) none [itemA, itemB]).file
          [itemA, itemB]).state
        (Playlist.nextSync
          (Playlist.nextSync (Playlist.init [itemA, itemB] none) none [itemA, itemB]).state
          (Playlist.nextSync (Playlist.init [itemA, itemB] none) none [itemA, itemB]).file
          [itemA, itemB]).file
        [itemA, itemB]).result = .item itemB) := by decide

/-- C3: `next()` is not total on the round-complete state.  From an
empty in-memory sequence, a single `next()` whose inline reload finds
the one-item catalog `[a]` leaves the playlist in the reachable state
`cursor = 1 = length` with no reload pending, and the following `next()`
evaluates `_videos[_index]` out of bounds (an uncaught `IndexError`)
instead of returning the item at the cursor or absent. -/
theorem C3_round_complete_next_crashes :
    (Playlist.next (⟨[], 0, 0⟩ : PlaylistState) none [itemA]).result = .item itemA ∧
    (Playlist.next (⟨[], 0, 0⟩ : PlaylistState) none [itemA]).state
      = (⟨[itemA], 1, 0⟩ : PlaylistState) ∧
    (Playlist.next (⟨[], 0, 0⟩ : PlaylistState) none [itemA]).reloadTriggered = false ∧
    (Playlist.next
        (Playlist.next (⟨[], 0, 0⟩ : PlaylistState) none [itemA]).state
        (Playlist.next (⟨[], 0, 0⟩ : PlaylistState) none [itemA]).file
        [itemA]).result = .crash := by decide

/-! ## Shared concrete supervisor data -/

/-- The supervisor state right after `start()` begins: running, no skip
pending, all counters and telemetry zeroed. -/
def stInit : StreamerState :=
  { running := true, skipRequested := false, currentVideo := "", videosPlayed := 0
    totalFailures := 0, lastDiagnosisTime := 0, duration := 0, currentTime := 0
    progress := 0, bitrate := "", speed := "", seekOffset := 0 }

/-- A diagnosis environment in which every inspected check passes. -/
def envAllOk : DiagEnv :=
  { rtmpOk := true, keyOk := true, liveOk := true, cookieConfigured := true
    csrfFound := true, startLive1 := .other, pollRunning := fun _ => true
    pollVerified := fun _ => true, startLive2 := .other }

/-- A diagnosis environment with the RTMP check failing, recovery
configured, and a challenge whose verification poll never succeeds. -/
def envChallenge : DiagEnv :=
  { rtmpOk := false, keyOk := true, liveOk := true, cookieConfigured := true
    csrfFound := true, startLive1 := .challenge, pollRunning := fun _ => true
    pollVerified := fun _ => false, startLive2 := .other }

/-- The configuration used by the concrete scenarios in the spec:
`retry_delay = 5`, `max_retry_delay = 60`, unbounded retries. -/
def cfgDemo : Resilience := ⟨5, 60, 0⟩

/-- One failing attempt (exit code 1, no telemetry) at wall clock 10000
with all diagnosis checks passing. -/
def failAttempt : AttemptSpec := { out := some 1, now := 10000, env := envAllOk }

/-! ## Claims about the supervisor loop -/

/-- Both supervisor loops guard every iteration on the run flag: once it
is false, no further process is spawned and nothing is slept. -/
theorem runInner_not_running (cfg : Resilience) (name : String)
    (st : StreamerState) (vr : Nat) (rp : ℚ) (specs : List AttemptSpec)
    (h : st.running = false) :
    runInner cfg name st vr rp specs = (st, 0, []) := by
  cases specs with
  | nil => rfl
  | cons a rest => simp [runInner, h]

/-- C4 (amended): when a non-zero process exit brings the cumulative
failure counter (across items) up to a configured `max_retries > 0`, the
supervisor triggers one final diagnosis — the report actually runs
whenever the shared 60-second cooldown has elapsed — and transitions to
Stopped (run flag false, no further process spawned), regardless of the
per-item retry counter; with `max_retries = 0` the ceiling never halts
the supervisor: a failure exit stops it only when the cumulative counter
is a positive multiple of 5 and that periodic diagnosis actually ran
(cooldown elapsed) and recommended stopping. -/
theorem C4_max_retries_ceiling (cfg : Resilience) (st : StreamerState) (vr : Nat)
    (rp : ℚ) (rc : Int) (now : ℚ) (env : DiagEnv)
    (hskip : st.skipRequested = false) (hrc : rc ≠ 0) :
    (0 < cfg.maxRetries → cfg.maxRetries ≤ st.totalFailures + 1 →
      (classify cfg st vr rp (some rc) now env).action = .stopped ∧
      (classify cfg st vr rp (some rc) now env).state.running = false ∧
      (classify cfg st vr rp (some rc) now env).diagTriggers = 1 ∧
      (60 ≤ now - st.lastDiagnosisTime →
        (classify cfg st vr rp (some rc) now env).diagRuns = 1) ∧
      (∀ name vr2 rp2 specs,
        runInner cfg name (classify cfg st vr rp (some rc) now env).state vr2 rp2 specs
          = ((classify cfg st vr rp (some rc) now env).state, 0, []))) ∧
    (cfg.maxRetries = 0 →
      (classify cfg st vr rp (some rc) now env).action = ExitAction.stopped →
      diagShouldStop env = true ∧ (st.totalFailures + 1) % 5 = 0 ∧
      5 ≤ st.totalFailures + 1 ∧ 60 ≤ now - st.lastDiagnosisTime) := by
  constructor
  · intro h1 h2
    have hcls : (classify cfg st vr rp (some rc) now env) =
        { state := { (triggerDiagnosis { st with totalFailures := st.totalFailures + 1 } now env).state with running := false }
          videoRetry := vr + 1
          resumePos := st.currentTime
          action := .stopped
          diagTriggers := 1
          diagRuns := if (triggerDiagnosis { st with totalFailures := st.totalFailures + 1 } now env).ran then 1 else 0
          saves := [st.currentTime], sleeps := [] } := by
      simp only [classify, hskip, Bool.false_eq_true, if_false, hrc, if_neg hrc]
      rw [if_pos ⟨h1, h2⟩]
    refine ⟨by rw [hcls], by rw [hcls], by rw [hcls], ?_, ?_⟩
    · intro hcool
      rw [hcls]
      simp [triggerDiagnosis, not_lt.mpr hcool]
    · intro name vr2 rp2 specs
      exact runInner_not_running cfg name _ vr2 rp2 specs (by rw [hcls])
  · intro h0 hstop
    by_cases hper : 5 ≤ st.totalFailures + 1 ∧ (st.totalFailures + 1) % 5 = 0
    · by_cases hcool : now - st.lastDiagnosisTime < 60
      · exfalso
        simp [classify, hskip, hrc, h0, hper.1, hper.2, triggerDiagnosis, hcool] at hstop
      · have hstop2 : diagShouldStop env = true := by
          by_contra hds
          have hds2 : diagShouldStop env = false := by
            simpa using hds
          simp [classify, hskip, hrc, h0, hper.1, hper.2, triggerDiagnosis, hcool,
            hds2] at hstop
        exact ⟨hstop2, hper.2, hper.1, not_lt.mp hcool⟩
    · exfalso
      rw [Classical.not_and_iff_or_not_not] at hper
      rcases hper with hper | hper
      · simp [classify, hskip, hrc, h0, hper] at hstop
      · simp [classify, hskip, hrc, h0, hper] at hstop

/-- C4 counterexample: with `max_retries = 2` and a diagnosis that ran
30 seconds earlier, the second non-zero exit stops the supervisor with
the final diagnosis suppressed by the shared cooldown — the claim's
"runs one final diagnosis" does not hold. -/
theorem C4_counterexample :
    (classify ⟨5, 60, 2⟩ { stInit with totalFailures := 1, lastDiagnosisTime := 9970 }
        0 0 (some 1) 10000 envAllOk).action = .stopped ∧
    (classify ⟨5, 60, 2⟩ { stInit with totalFailures := 1, lastDiagnosisTime := 9970 }
        0 0 (some 1) 10000 envAllOk).state.running = false ∧
    (classify ⟨5, 60, 2⟩ { stInit with totalFailures := 1, lastDiagnosisTime := 9970 }
        0 0 (some 1) 10000 envAllOk).diagRuns = 0 := by
  with_unfolding_all decide

/-- Concrete instance of `C4_max_retries_ceiling`: `max_retries = 3`,
third cumulative failure (on an item whose per-item counter is 7),
cooldown long elapsed — the supervisor stops, triggers exactly one
diagnosis and runs it. -/
theorem C4_witness :
    (classify ⟨5, 60, 3⟩ { stInit with totalFailures := 2 } 7 0 (some 1) 10000
        envAllOk).action = .stopped ∧
    (classify ⟨5, 60, 3⟩ { stInit with totalFailures := 2 } 7 0 (some 1) 10000
        envAllOk).state.running = false ∧
    (classify ⟨5, 60, 3⟩ { stInit with totalFailures := 2 } 7 0 (some 1) 10000
        envAllOk).diagTriggers = 1 ∧
    (classify ⟨5, 60, 3⟩ { stInit with totalFailures := 2 } 7 0 (some 1) 10000
        envAllOk).diagRuns = 1 ∧
    diagShouldStop envChallenge = true := by
  have h := C4_max_retries_ceiling ⟨5, 60, 3⟩ { stInit with totalFailures := 2 } 7 0 1
    10000 envAllOk rfl (by decide)
  have h1 := h.1 (by decide) (by decide)
  have h2 := C4_max_retries_ceiling ⟨5, 60, 0⟩ { stInit with totalFailures := 4 } 7 0 1
    10000 envChallenge rfl (by decide)
  exact ⟨h1.1, h1.2.1, h1.2.2.1, h1.2.2.2.1 (by with_unfolding_all decide),
    (h2.2 rfl (by with_unfolding_all decide)).1⟩

/-- C5 (amended): an uncaught exception while spawning or reading the
encode process increments only the cumulative failure counter — the
per-item retry counter is untouched — persists the current elapsed
position as the resume offset, sleeps the constant base delay (no
exponential backoff), is not checked against the max-retries ceiling in
that iteration, and triggers no diagnosis. -/
theorem C5_exception_path (cfg : Resilience) (st : StreamerState) (vr : Nat)
    (rp : ℚ) (now : ℚ) (env : DiagEnv) :
    classify cfg st vr rp none now env =
      { state := { st with totalFailures := st.totalFailures + 1 }
        videoRetry := vr
        resumePos := st.currentTime
        action := .retry cfg.retryDelay
        diagTriggers := 0
        diagRuns := 0
        saves := [st.currentTime]
        sleeps := [cfg.retryDelay] } := rfl

/-- C5 counterexample: with `max_retries = 1`, per-item retry counter 3
and elapsed position 42, an uncaught exception retries after the plain
base delay with no diagnosis and an unchanged per-item counter, while
the non-zero exit the claim equates it with stops the supervisor at the
ceiling — the exception is not handled identically to a non-zero exit
and no diagnosis is triggered. -/
theorem C5_counterexample :
    (classify ⟨5, 60, 1⟩ { stInit with currentTime := 42 } 3 7 none 10000
        envAllOk).videoRetry = 3 ∧
    (classify ⟨5, 60, 1⟩ { stInit with currentTime := 42 } 3 7 none 10000
        envAllOk).action = .retry 5 ∧
    (classify ⟨5, 60, 1⟩ { stInit with currentTime := 42 } 3 7 none 10000
        envAllOk).diagTriggers = 0 ∧
    (classify ⟨5, 60, 1⟩ { stInit with currentTime := 42 } 3 7 (some 1) 10000
        envAllOk).action = .stopped ∧
    (classify ⟨5, 60, 1⟩ { stInit with currentTime := 42 } 3 7 (some 1) 10000
        envAllOk).videoRetry = 4 := by
  with_unfolding_all decide

/-- C7: diagnosis triggers share one 60-second cooldown, for every
trigger reason (the environment, i.e. the reason and check results, is
arbitrary and different per trigger): a first trigger that runs, a
second trigger less than 60 seconds later that is skipped with no state
change and no stop advice, and a third trigger 60 or more seconds after
the *first* (no constraint relative to the second) that runs again. -/
theorem C7_diagnosis_cooldown (st : StreamerState) (t1 t2 t3 : ℚ)
    (e1 e2 e3 : DiagEnv) (h1 : 60 ≤ t1 - st.lastDiagnosisTime)
    (h2 : t2 - t1 < 60) (h3 : 60 ≤ t3 - t1) :
    (triggerDiagnosis st t1 e1).ran = true ∧
    (triggerDiagnosis st t1 e1).state.lastDiagnosisTime = t1 ∧
    (triggerDiagnosis (triggerDiagnosis st t1 e1).state t2 e2).ran = false ∧
    (triggerDiagnosis (triggerDiagnosis st t1 e1).state t2 e2).shouldStop = false ∧
    (triggerDiagnosis (triggerDiagnosis st t1 e1).state t2 e2).state
      = (triggerDiagnosis st t1 e1).state ∧
    (triggerDiagnosis
        (triggerDiagnosis (triggerDiagnosis st t1 e1).state t2 e2).state t3 e3).ran
      = true := by
  have hc1 : ¬ (t1 - st.lastDiagnosisTime < 60) := not_lt.mpr h1
  have hst1 : (triggerDiagnosis st t1 e1).state
      = { st with lastDiagnosisTime := t1 } := by
    simp [triggerDiagnosis, hc1]
  have hran1 : (triggerDiagnosis st t1 e1).ran = true := by
    simp [triggerDiagnosis, hc1]
  have hc2 : t2 - ({ st with lastDiagnosisTime := t1 } : StreamerState).lastDiagnosisTime
      < 60 := h2
  have hskip2 : triggerDiagnosis ({ st with lastDiagnosisTime := t1 }) t2 e2
      = ⟨false, { st with lastDiagnosisTime := t1 }, false⟩ := by
    simp [triggerDiagnosis, hc2]
  have hc3 : ¬ (t3 - ({ st with lastDiagnosisTime := t1 } : StreamerState).lastDiagnosisTime
      < 60) := not_lt.mpr h3
  refine ⟨hran1, by rw [hst1], ?_, ?_, ?_, ?_⟩
  · rw [hst1, hskip2]
  · rw [hst1, hskip2]
  · rw [hst1, hskip2]
  · rw [hst1, hskip2]
    simp [triggerDiagnosis, hc3]

/-- Concrete instance of `C7_diagnosis_cooldown`: triggers at 1000, 1030
and 1061 seconds — the third runs although only 31 seconds passed since
the second, because the skipped second trigger did not move the cooldown
clock. -/
theorem C7_witness :
    (triggerDiagnosis stInit 1000 envAllOk).ran = true ∧
    (triggerDiagnosis (triggerDiagnosis stInit 1000 envAllOk).state 1030
        envChallenge).ran = false ∧
    (triggerDiagnosis (triggerDiagnosis stInit 1000 envAllOk).state 1030
        envChallenge).state = (triggerDiagnosis stInit 1000 envAllOk).state ∧
    (triggerDiagnosis
        (triggerDiagnosis (triggerDiagnosis stInit 1000 envAllOk).state 1030
          envChallenge).state 1061 envAllOk).ran = true := by
  have h := C7_diagnosis_cooldown stInit 1000 1030 1061 envAllOk envChallenge envAllOk
    (by with_unfolding_all decide) (by with_unfolding_all decide)
    (by with_unfolding_all decide)
  exact ⟨h.1, h.2.2.1, h.2.2.2.2.1, h.2.2.2.2.2⟩

/-- C8: when the skip flag is set at the moment the encode process
exits, the loop clears the flag and advances to the next item, with the
cumulative failure counter, the per-item retry counter and the
items-played counter all unchanged, no save, no sleep and no diagnosis,
regardless of the exit code; `skip()` with a live process is what sets
the flag. -/
theorem C8_skip_flag (cfg : Resilience) (st : StreamerState) (vr : Nat)
    (rp : ℚ) (rc : Int) (now : ℚ) (env : DiagEnv)
    (hskip : st.skipRequested = true) :
    classify cfg st vr rp (some rc) now env =
      { state := { st with skipRequested := false }, videoRetry := vr
        resumePos := rp, action := .nextItem, diagTriggers := 0, diagRuns := 0
        saves := [], sleeps := [] } ∧
    (classify cfg st vr rp (some rc) now env).state.totalFailures
      = st.totalFailures ∧
    (classify cfg st vr rp (some rc) now env).state.videosPlayed
      = st.videosPlayed ∧
    (classify cfg st vr rp (some rc) now env).videoRetry = vr ∧
    (∀ st2 : StreamerState, (Streamer.skip true st2).skipRequested = true) := by
  have hcls : classify cfg st vr rp (some rc) now env =
      { state := { st with skipRequested := false }, videoRetry := vr
        resumePos := rp, action := .nextItem, diagTriggers := 0, diagRuns := 0
        saves := [], sleeps := [] } := by
    simp [classify, hskip]
  refine ⟨hcls, by rw [hcls], by rw [hcls], by rw [hcls], ?_⟩
  intro st2
  simp [Streamer.skip]

/-- Concrete instance of `C8_skip_flag`: a skip observed on a *non-zero*
exit (code 1) with failure counter 3 — the loop advances, counters
untouched. -/
theorem C8_witness :
    (classify cfgDemo { stInit with skipRequested := true, totalFailures := 3 }
        2 0 (some 1) 10000 envAllOk).action = .nextItem ∧
    (classify cfgDemo { stInit with skipRequested := true, totalFailures := 3 }
        2 0 (some 1) 10000 envAllOk).state.totalFailures = 3 ∧
    (classify cfgDemo { stInit with skipRequested := true, totalFailures := 3 }
        2 0 (some 1) 10000 envAllOk).state.skipRequested = false ∧
    (classify cfgDemo { stInit with skipRequested := true, totalFailures := 3 }
        2 0 (some 1) 10000 envAllOk).state.videosPlayed = 0 := by
  have h := C8_skip_flag cfgDemo
    { stInit with skipRequested := true, totalFailures := 3 } 2 0 1 10000 envAllOk rfl
  exact ⟨by rw [h.1], by rw [h.1], by rw [h.1], by rw [h.1]; rfl⟩

/-- C6: every retry of the same item after a non-zero exit sleeps
exactly `min(base_delay * 2^(n-1), max_delay)` seconds, where `n` is the
per-item attempt counter after the increment; the counter is reset to 0
each time a new item is taken from the playlist; and with
`base_delay = 5`, `max_delay = 60` five consecutive failing attempts
sleep 5, 10, 20, 40, 60 seconds. -/
theorem C6_exponential_backoff (cfg : Resilience) (st : StreamerState) (vr : Nat)
    (rp : ℚ) (rc : Int) (now : ℚ) (env : DiagEnv)
    (hskip : st.skipRequested = false) (hrc : rc ≠ 0) :
    (∀ d, (classify cfg st vr rp (some rc) now env).action = .retry d →
      d = min (cfg.retryDelay * 2 ^ (vr + 1 - 1)) cfg.maxRetryDelay ∧
      (classify cfg st vr rp (some rc) now env).videoRetry = vr + 1 ∧
      (classify cfg st vr rp (some rc) now env).sleeps = [d]) ∧
    (∀ pl : PlaylistState, (loadItem pl).2.2 = 0) ∧
    (runInner cfgDemo "a" stInit 0 0
        [failAttempt, failAttempt, failAttempt, failAttempt, failAttempt]).2.2
      = [5, 10, 20, 40, 60] := by
  refine ⟨?_, fun pl => rfl, by with_unfolding_all decide⟩
  intro d hd
  by_cases hceil : 0 < cfg.maxRetries ∧ cfg.maxRetries ≤ st.totalFailures + 1
  · exfalso
    simp [classify, hskip, hrc, hceil.1, hceil.2] at hd
  · by_cases hper : 5 ≤ st.totalFailures + 1 ∧ (st.totalFailures + 1) % 5 = 0
    · cases hds : (triggerDiagnosis
          { st with skipRequested := false, totalFailures := st.totalFailures + 1 }
          now env).shouldStop with
      | true =>
        exfalso
        simp [classify, hskip, hrc, hceil, hper.1, hper.2, hds] at hd
      | false =>
        simp [classify, hskip, hrc, hceil, hper.1, hper.2, hds] at hd ⊢
        subst hd
        simp
    · rw [Classical.not_and_iff_or_not_not] at hper
      rcases hper with hper | hper
      · simp [classify, hskip, hrc, hceil, hper] at hd ⊢
        subst hd
        simp
      · simp [classify, hskip, hrc, hceil, hper] at hd ⊢
        subst hd
        simp

/-- Concrete instance of `C6_exponential_backoff`: third attempt of an
item (`video_retry` becomes 3), base delay 5, cap 60: the loop sleeps
`min(5 * 2^2, 60) = 20` seconds. -/
theorem C6_witness :
    (classify cfgDemo stInit 2 0 (some 1) 10000 envAllOk).action
      = .retry (min ((5 : ℚ) * 2 ^ (2 + 1 - 1)) 60) ∧
    min ((5 : ℚ) * 2 ^ (2 + 1 - 1)) 60 = 20 ∧
    (classify cfgDemo stInit 2 0 (some 1) 10000 envAllOk).videoRetry = 3 ∧
    (classify cfgDemo stInit 2 0 (some 1) 10000 envAllOk).sleeps
      = [min ((5 : ℚ) * 2 ^ (2 + 1 - 1)) 60] := by
  have hact : (classify cfgDemo stInit 2 0 (some 1) 10000 envAllOk).action
      = .retry (min ((5 : ℚ) * 2 ^ (2 + 1 - 1)) 60) := by
    with_unfolding_all decide
  have h := (C6_exponential_backoff cfgDemo stInit 2 0 1 10000 envAllOk rfl
    (by decide)).1 (min ((5 : ℚ) * 2 ^ (2 + 1 - 1)) 60) hact
  exact ⟨hact, by with_unfolding_all decide, h.2.1, h.2.2⟩

/-- The verification poll returns `verified j` only for an iteration
inside its fuel window. -/
theorem pollFaceGo_verified_lt (running verified : Nat → Bool) :
    ∀ (fuel k j : Nat), pollFaceGo running verified fuel k = .verified j →
      j < k + fuel := by
  intro fuel
  induction fuel with
  | zero => intro k j h; simp [pollFaceGo] at h
  | succ f ih =>
    intro k j h
    by_cases hr : running k = true
    · by_cases hv : verified k = true
      · simp [pollFaceGo, hr, hv] at h
        omega
      · simp [pollFaceGo, hr, hv] at h
        have := ih (k + 1) j h
        omega
    · simp [pollFaceGo, hr] at h

/-- The verification poll aborts with `stoppedEarly j` only for an
iteration inside its fuel window. -/
theorem pollFaceGo_stopped_lt (running verified : Nat → Bool) :
    ∀ (fuel k j : Nat), pollFaceGo running verified fuel k = .stoppedEarly j →
      j < k + fuel := by
  intro fuel
  induction fuel with
  | zero => intro k j h; simp [pollFaceGo] at h
  | succ f ih =>
    intro k j h
    by_cases hr : running k = true
    · by_cases hv : verified k = true
      · simp [pollFaceGo, hr, hv] at h
      · simp [pollFaceGo, hr, hv] at h
        have := ih (k + 1) j h
        omega
    · simp [pollFaceGo, hr] at h
      omega

/-- With the run flag up and verification never succeeding, the poll
exhausts its fuel and times out. -/
theorem pollFaceGo_timeout (running verified : Nat → Bool)
    (hr : ∀ j, running j = true) (hv : ∀ j, verified j = false) :
    ∀ (fuel k : Nat), pollFaceGo running verified fuel k = .timeout := by
  intro fuel
  induction fuel with
  | zero => intro k; rfl
  | succ f ih => intro k; simp [pollFaceGo, hr k, hv k, ih]

/-- The poll aborts at the first iteration whose run flag is down. -/
theorem pollFaceGo_stops (running verified : Nat → Bool) :
    ∀ (fuel k k0 : Nat), k ≤ k0 → k0 < k + fuel → running k0 = false →
      (∀ j, k ≤ j → j < k0 → running j = true ∧ verified j = false) →
      pollFaceGo running verified fuel k = .stoppedEarly k0 := by
  intro fuel
  induction fuel with
  | zero => intro k k0 hk hlt; omega
  | succ f ih =>
    intro k k0 hk hlt hr0 hall
    rcases Nat.eq_or_lt_of_le hk with rfl | hk2
    · simp [pollFaceGo, hr0]
    · have hj := hall k le_rfl hk2
      simp only [pollFaceGo, hj.1, hj.2]
      simp
      exact ih (k + 1) k0 hk2 (by omega) hr0 (fun j h1 h2 => hall j (by omega) h2)

/-- C9: the identity-verification sub-flow of recovery polls the
verification endpoint at most 120 times (one 1-second sleep per
unverified iteration) and always terminates; it returns failure early at
the first iteration at which the supervisor's run flag is false; and
when it times out without verification, `_attempt_auto_restart` reports
failure, the diagnosis decision escalates to a stop, and a failure exit
classified at that diagnosis (here the fifth cumulative failure, outside
the cooldown, with the RTMP check failing and recovery configured) turns
the supervisor's run flag off. -/
theorem C9_recovery_poll (running verified : Nat → Bool) (k0 : Nat) :
    (∀ j, pollFace running verified = .verified j → j < 120) ∧
    (∀ j, pollFace running verified = .stoppedEarly j → j < 120) ∧
    (running k0 = false → (∀ j, j < k0 → running j = true ∧ verified j = false) →
      k0 < 120 → pollFace running verified = .stoppedEarly k0) ∧
    ((∀ j, running j = true) → (∀ j, verified j = false) →
      pollFace running verified = .timeout ∧
      (∀ (cfg : Resilience) (st : StreamerState) (vr : Nat) (rp : ℚ) (rc : Int)
          (now : ℚ) (e : DiagEnv),
        e.pollRunning = running → e.pollVerified = verified →
        e.startLive1 = .challenge → e.cookieConfigured = true → e.csrfFound = true →
        e.rtmpOk = false → st.skipRequested = false → rc ≠ 0 → cfg.maxRetries = 0 →
        st.totalFailures + 1 = 5 → 60 ≤ now - st.lastDiagnosisTime →
        attemptAutoRestart e = false ∧ diagShouldStop e = true ∧
        (classify cfg st vr rp (some rc) now e).action = .stopped ∧
        (classify cfg st vr rp (some rc) now e).state.running = false)) := by
  refine ⟨fun j h => by simpa using pollFaceGo_verified_lt running verified 120 0 j h,
    fun j h => by simpa using pollFaceGo_stopped_lt running verified 120 0 j h,
    fun hr0 hall hk0 =>
      pollFaceGo_stops running verified 120 0 k0 (Nat.zero_le k0) (by omega) hr0
        (fun j _ h2 => hall j h2), ?_⟩
  intro hr hv
  have ht : pollFace running verified = .timeout :=
    pollFaceGo_timeout running verified hr hv 120 0
  refine ⟨ht, ?_⟩
  intro cfg st vr rp rc now e hpr hpv hs1 hcc hcs hrtmp hskip hrc h0 htf hcool
  have hres : attemptAutoRestart e = false := by
    rw [attemptAutoRestart, hs1]
    rw [hpr, hpv, ht]
    simp [hcs]
  have hds : diagShouldStop e = true := by
    simp [diagShouldStop, hrtmp, hcc, hres]
  have hcls : (classify cfg st vr rp (some rc) now e).action = .stopped ∧
      (classify cfg st vr rp (some rc) now e).state.running = false := by
    constructor <;>
      simp [classify, hskip, hrc, h0, htf, triggerDiagnosis, not_lt.mpr hcool, hds]
  exact ⟨hres, hds, hcls.1, hcls.2⟩

/-- Concrete instance of `C9_recovery_poll`: a never-verified poll with
the run flag up times out; with the run flag down from the start the
poll aborts at iteration 0; and the timed-out recovery makes the
supervisor stop at the fifth cumulative failure. -/
theorem C9_witness :
    pollFace (fun _ => true) (fun _ => false) = .timeout ∧
    pollFace (fun _ => false) (fun _ => false) = .stoppedEarly 0 ∧
    attemptAutoRestart envChallenge = false ∧
    diagShouldStop envChallenge = true ∧
    (classify ⟨5, 60, 0⟩ { stInit with totalFailures := 4 } 2 0 (some 1) 10000
        envChallenge).action = .stopped ∧
    (classify ⟨5, 60, 0⟩ { stInit with totalFailures := 4 } 2 0 (some 1) 10000
        envChallenge).state.running = false := by
  have h := C9_recovery_poll (fun _ => true) (fun _ => false) 0
  have ht := h.2.2.2 (fun j => rfl) (fun j => rfl)
  have h2 := C9_recovery_poll (fun _ => false) (fun _ => false) 0
  have hc := ht.2 ⟨5, 60, 0⟩ { stInit with totalFailures := 4 } 2 0 1 10000 envChallenge
    rfl rfl rfl rfl rfl rfl rfl (by decide) rfl rfl (by with_unfolding_all decide)
  exact ⟨ht.1,
    h2.2.2.1 rfl (fun j hj => absurd hj (Nat.not_lt_zero j)) (by decide),
    hc.1, hc.2.1, hc.2.2.1, hc.2.2.2⟩

/-! ## Telemetry / position accumulation (C10) -/

/-- Accumulator form of "the last `time=` token parsed so far" over a
list of output lines, in seconds. -/
def lastTimeTokFrom (acc : Option ℚ) (lines : List TLine) : Option ℚ :=
  lines.foldl
    (fun a ln => match ln.tim with | some t => some (hmsToSecs t) | none => a) acc

/-- The last `time=` token of one attempt's output, in seconds. -/
def lastTimeTok (lines : List TLine) : Option ℚ := lastTimeTokFrom none lines

/-- The function `lastTimeTokFrom` only consults its accumulator when no later line
carries a token. -/
theorem lastTimeTokFrom_eq (lines : List TLine) : ∀ acc : Option ℚ,
    lastTimeTokFrom acc lines =
      (match lastTimeTok lines with | some u => some u | none => acc) := by
  induction lines with
  | nil => intro acc; simp [lastTimeTok, lastTimeTokFrom]
  | cons l ls ih =>
    intro acc
    have h2 : lastTimeTok (l :: ls) =
        (match lastTimeTok ls with
         | some u => some u
         | none => match l.tim with | some t => some (hmsToSecs t) | none => none) :=
      ih (match l.tim with | some t => some (hmsToSecs t) | none => none)
    calc lastTimeTokFrom acc (l :: ls)
        = lastTimeTokFrom
            (match l.tim with | some t => some (hmsToSecs t) | none => acc) ls := rfl
      _ = (match lastTimeTok ls with
           | some u => some u
           | none => match l.tim with | some t => some (hmsToSecs t) | none => acc) :=
            ih _
      _ = (match lastTimeTok (l :: ls) with | some u => some u | none => acc) := by
            rw [h2]
            cases lastTimeTok ls <;> cases hl : l.tim <;> simp

/-- One output line never touches the run flag, the skip flag or the
seek offset. -/
theorem readOutputStep_fields (rs : ReadState) (ln : TLine) :
    (readOutputStep rs ln).st.running = rs.st.running ∧
    (readOutputStep rs ln).st.skipRequested = rs.st.skipRequested ∧
    (readOutputStep rs ln).st.seekOffset = rs.st.seekOffset := by
  rcases ln with ⟨dur, tim, br, sp, arr⟩
  by_cases h : rs.st.running = true
  · cases dur <;> cases tim <;> simp [readOutputStep, h]
  · simp [readOutputStep, h]

/-- A line carrying a `time=` token sets `current_time` to
`_seek_offset + t`; a line without one leaves it unchanged. -/
theorem readOutputStep_currentTime (rs : ReadState) (ln : TLine)
    (h : rs.st.running = true) :
    (readOutputStep rs ln).st.currentTime =
      (match ln.tim with
       | some t => rs.st.seekOffset + hmsToSecs t
       | none => rs.st.currentTime) := by
  rcases ln with ⟨dur, tim, br, sp, arr⟩
  cases dur <;> cases tim <;> simp [readOutputStep, h]

/-- A `time=` line arriving 10 or more seconds after the last save
persists the absolute position `_seek_offset + t` and restamps the save
clock. -/
theorem readOutputStep_saves (rs : ReadState) (ln : TLine)
    (t : Nat × Nat × Nat × Nat) (h : rs.st.running = true)
    (ht : ln.tim = some t) (hsave : 10 ≤ ln.arrival - rs.lastSave) :
    (readOutputStep rs ln).saves = rs.saves ++ [rs.st.seekOffset + hmsToSecs t] ∧
    (readOutputStep rs ln).lastSave = ln.arrival := by
  rcases ln with ⟨dur, tim, br, sp, arr⟩
  simp only at ht hsave
  subst ht
  cases dur <;> simp [readOutputStep, h, hsave]

/-- Invariant of the whole `_read_output` fold: the run flag stays up,
the skip flag and seek offset are untouched, and `current_time` ends at
`_seek_offset` plus the last parsed token (or its starting value when no
token was parsed). -/
theorem readOutput_fold (lines : List TLine) : ∀ rs : ReadState,
    rs.st.running = true →
    ((lines.foldl readOutputStep rs).st.running = true ∧
     (lines.foldl readOutputStep rs).st.skipRequested = rs.st.skipRequested ∧
     (lines.foldl readOutputStep rs).st.seekOffset = rs.st.seekOffset ∧
     (lines.foldl readOutputStep rs).st.currentTime =
       (match lastTimeTok lines with
        | some t => rs.st.seekOffset + t
        | none => rs.st.currentTime)) := by
  induction lines with
  | nil => intro rs h; exact ⟨h, rfl, rfl, rfl⟩
  | cons l ls ih =>
    intro rs h
    have hf := readOutputStep_fields rs l
    have hc := readOutputStep_currentTime rs l h
    have ih2 := ih (readOutputStep rs l) (by rw [hf.1]; exact h)
    have hfold : (l :: ls).foldl readOutputStep rs = ls.foldl readOutputStep (readOutputStep rs l) := rfl
    have hlast : lastTimeTok (l :: ls) =
        (match lastTimeTok ls with
         | some u => some u
         | none => match l.tim with | some t => some (hmsToSecs t) | none => none) := by
      show lastTimeTokFrom _ (l :: ls) = _
      show lastTimeTokFrom (match l.tim with | some t => some (hmsToSecs t) | none => none) ls = _
      rw [lastTimeTokFrom_eq]
    refine ⟨by rw [hfold]; exact ih2.1,
      by rw [hfold, ih2.2.1, hf.2.1],
      by rw [hfold, ih2.2.2.1, hf.2.2],
      ?_⟩
    rw [hfold, ih2.2.2.2, hlast, hf.2.2, hc]
    cases h2 : lastTimeTok ls with
    | some u => rfl
    | none => cases h3 : l.tim <;> rfl

/-- After a non-zero exit without a pending skip, the value persisted
and carried as the next resume offset is exactly the runtime
`current_time`. -/
theorem classify_fail_resumePos (cfg : Resilience) (st : StreamerState) (vr : Nat)
    (rp : ℚ) (rc : Int) (now : ℚ) (env : DiagEnv)
    (hskip : st.skipRequested = false) (hrc : rc ≠ 0) :
    (classify cfg st vr rp (some rc) now env).resumePos = st.currentTime ∧
    (classify cfg st vr rp (some rc) now env).saves = [st.currentTime] := by
  by_cases hceil : 0 < cfg.maxRetries ∧ cfg.maxRetries ≤ st.totalFailures + 1
  · constructor <;> simp [classify, hskip, hrc, hceil.1, hceil.2]
  · by_cases hper : 5 ≤ st.totalFailures + 1 ∧ (st.totalFailures + 1) % 5 = 0
    · cases hds : (triggerDiagnosis
          { st with skipRequested := false, totalFailures := st.totalFailures + 1 }
          now env).shouldStop with
      | true =>
        constructor <;> simp [classify, hskip, hrc, hceil, hper.1, hper.2, hds]
      | false =>
        constructor <;> simp [classify, hskip, hrc, hceil, hper.1, hper.2, hds]
    · rw [Classical.not_and_iff_or_not_not] at hper
      rcases hper with hper | hper <;>
        (constructor <;> simp [classify, hskip, hrc, hceil, hper])

/-- A non-zero exit handled while the retry ceiling is off and the
diagnosis decision does not escalate leaves the run flag and the (clear)
skip flag as they were. -/
theorem classify_fail_preserves (cfg : Resilience) (st : StreamerState) (vr : Nat)
    (rp : ℚ) (rc : Int) (now : ℚ) (env : DiagEnv)
    (hskip : st.skipRequested = false) (hrc : rc ≠ 0) (h0 : cfg.maxRetries = 0)
    (hds : diagShouldStop env = false) :
    (classify cfg st vr rp (some rc) now env).state.running = st.running ∧
    (classify cfg st vr rp (some rc) now env).state.skipRequested = false := by
  by_cases hper : 5 ≤ st.totalFailures + 1 ∧ (st.totalFailures + 1) % 5 = 0
  · by_cases hcool : now - st.lastDiagnosisTime < 60
    · constructor <;>
        simp [classify, hskip, hrc, h0, hper.1, hper.2, triggerDiagnosis, hcool, hds]
    · constructor <;>
        simp [classify, hskip, hrc, h0, hper.1, hper.2, triggerDiagnosis, hcool, hds]
  · rw [Classical.not_and_iff_or_not_not] at hper
    rcases hper with hper | hper <;>
      (constructor <;> simp [classify, hskip, hrc, h0, hper])

/-- One resume-then-crash cycle of the supervisor's inner loop: start
the attempt at the carried resume offset (`attemptStart`), read the
process output, classify the non-zero exit; carry over the resulting
state and the newly persisted resume offset. -/
def crashCycle (cfg : Resilience) (name : String) (t0 now : ℚ) (vr : Nat)
    (rp : ℚ) (rc : Int) (env : DiagEnv) (p : StreamerState × ℚ)
    (lines : List TLine) : StreamerState × ℚ :=
  let r := classify cfg (readOutput (attemptStart p.1 name p.2) t0 lines).st vr rp
    (some rc) now env
  (r.state, r.resumePos)

/-- A parsed `time=` token is a nonnegative number of seconds. -/
theorem hmsToSecs_nonneg (t : Nat × Nat × Nat × Nat) : 0 ≤ hmsToSecs t := by
  unfold hmsToSecs
  positivity

/-- The last parsed token of an attempt is nonnegative. -/
theorem lastTimeTok_nonneg (lines : List TLine) :
    ∀ q, lastTimeTok lines = some q → 0 ≤ q := by
  induction lines with
  | nil => intro q h; simp [lastTimeTok, lastTimeTokFrom] at h
  | cons l ls ih =>
    intro q h
    rw [show lastTimeTok (l :: ls) =
        (match lastTimeTok ls with
         | some u => some u
         | none => match l.tim with | some t => some (hmsToSecs t) | none => none)
      from lastTimeTokFrom_eq ls _] at h
    cases h3 : lastTimeTok ls with
    | some u =>
      rw [h3] at h
      simp only [Option.some.injEq] at h
      exact h ▸ ih u h3
    | none =>
      rw [h3] at h
      cases h4 : l.tim with
      | some t =>
        rw [h4] at h
        simp only [Option.some.injEq] at h
        exact h ▸ hmsToSecs_nonneg t
      | none => rw [h4] at h; simp at h

/-- Crash cycles whose attempts each parse at least one `time=` token
accumulate the resume offset: the offset after the cycles is the
starting offset plus the sum of the last parsed tokens, and the run and
skip flags are preserved (retry ceiling off, diagnosis not
escalating). -/
theorem crashCycles_accumulate (cfg : Resilience) (name : String)
    (t0 now rp : ℚ) (vr : Nat) (rc : Int) (env : DiagEnv)
    (hrc : rc ≠ 0) (h0 : cfg.maxRetries = 0) (hds : diagShouldStop env = false) :
    ∀ (cycles : List (List TLine)) (st : StreamerState) (seek : ℚ),
      st.running = true → st.skipRequested = false →
      (∀ c ∈ cycles, (lastTimeTok c).isSome = true) →
      ((cycles.foldl (crashCycle cfg name t0 now vr rp rc env) (st, seek)).2
        = seek + (cycles.map (fun c => (lastTimeTok c).getD 0)).sum ∧
       (cycles.foldl (crashCycle cfg name t0 now vr rp rc env) (st, seek)).1.running
        = true ∧
       (cycles.foldl (crashCycle cfg name t0 now vr rp rc env) (st, seek)).1.skipRequested
        = false) := by
  intro cycles
  induction cycles with
  | nil => intro st seek h1 h2 _; exact ⟨by simp, h1, h2⟩
  | cons c cs ih =>
    intro st seek h1 h2 hall
    have hs : (attemptStart st name seek).running = true := h1
    have hread := readOutput_fold c ⟨attemptStart st name seek, t0, []⟩ hs
    obtain ⟨t, hto⟩ := Option.isSome_iff_exists.mp (hall c (by simp))
    have hcur : (readOutput (attemptStart st name seek) t0 c).st.currentTime
        = seek + t := by
      show (c.foldl readOutputStep ⟨attemptStart st name seek, t0, []⟩).st.currentTime = _
      rw [hread.2.2.2, hto]
      rfl
    have hrun2 : (readOutput (attemptStart st name seek) t0 c).st.running = true :=
      hread.1
    have hskip2 : (readOutput (attemptStart st name seek) t0 c).st.skipRequested
        = false := by
      show (c.foldl readOutputStep ⟨attemptStart st name seek, t0, []⟩).st.skipRequested = _
      rw [hread.2.1]
      exact h2
    have hres := classify_fail_resumePos cfg
      (readOutput (attemptStart st name seek) t0 c).st vr rp rc now env hskip2 hrc
    have hpres := classify_fail_preserves cfg
      (readOutput (attemptStart st name seek) t0 c).st vr rp rc now env hskip2 hrc h0 hds
    have hF : crashCycle cfg name t0 now vr rp rc env (st, seek) c
        = ((classify cfg (readOutput (attemptStart st name seek) t0 c).st vr rp
            (some rc) now env).state, seek + t) := by
      show ((classify cfg (readOutput (attemptStart st name seek) t0 c).st vr rp
            (some rc) now env).state,
          (classify cfg (readOutput (attemptStart st name seek) t0 c).st vr rp
            (some rc) now env).resumePos) = _
      rw [hres.1, hcur]
    have hrun3 : (classify cfg (readOutput (attemptStart st name seek) t0 c).st vr rp
        (some rc) now env).state.running = true := by
      rw [hpres.1]
      exact hrun2
    have ihr := ih (classify cfg (readOutput (attemptStart st name seek) t0 c).st vr rp
        (some rc) now env).state (seek + t) hrun3 hpres.2
      (fun x hx => hall x (by simp [hx]))
    refine ⟨?_, ?_, ?_⟩
    · simp only [List.foldl_cons, hF]
      rw [ihr.1]
      simp only [List.map_cons, List.sum_cons, hto, Option.getD_some]
      ring
    · simp only [List.foldl_cons, hF]
      exact ihr.2.1
    · simp only [List.foldl_cons, hF]
      exact ihr.2.2

/-- C10 (amended): the reported playback position is absolute.  Every
parsed telemetry token `t` sets `current_time := _seek_offset + t`; the
10-second checkpoint persists exactly that absolute value; an attempt
started from offset `seek` ends with `current_time = seek + t_last` when
at least one token was parsed (and 0 when none was); after a non-zero
exit that value is persisted as the next resume offset; hence
resume-then-crash cycles in which every attempt parsed at least one
token accumulate the offset (`seek + Σ t_last`), never losing it — but a
cycle that crashes before any token resets the offset to 0
(`C10_counterexample`). -/
theorem C10_absolute_position (cfg : Resilience) (name : String)
    (st : StreamerState) (t0 now seek rp : ℚ) (vr : Nat) (rc : Int)
    (env : DiagEnv) (lines : List TLine)
    (hrun : st.running = true) (hskip : st.skipRequested = false) (hrc : rc ≠ 0) :
    (∀ (rs : ReadState) (ln : TLine) (t : Nat × Nat × Nat × Nat),
      rs.st.running = true → ln.tim = some t →
      (readOutputStep rs ln).st.currentTime = rs.st.seekOffset + hmsToSecs t) ∧
    (∀ (rs : ReadState) (ln : TLine) (t : Nat × Nat × Nat × Nat),
      rs.st.running = true → ln.tim = some t → 10 ≤ ln.arrival - rs.lastSave →
      (readOutputStep rs ln).saves = rs.saves ++ [rs.st.seekOffset + hmsToSecs t]) ∧
    ((readOutput (attemptStart st name seek) t0 lines).st.currentTime =
      (match lastTimeTok lines with | some t => seek + t | none => 0)) ∧
    ((classify cfg (readOutput (attemptStart st name seek) t0 lines).st vr rp
        (some rc) now env).resumePos =
      (match lastTimeTok lines with | some t => seek + t | none => 0)) ∧
    (cfg.maxRetries = 0 → diagShouldStop env = false →
      ∀ cycles : List (List TLine), (∀ c ∈ cycles, (lastTimeTok c).isSome = true) →
        (cycles.foldl (crashCycle cfg name t0 now vr rp rc env) (st, seek)).2
          = seek + (cycles.map (fun c => (lastTimeTok c).getD 0)).sum ∧
        seek ≤ (cycles.foldl (crashCycle cfg name t0 now vr rp rc env) (st, seek)).2) := by
  have hs : (attemptStart st name seek).running = true := hrun
  have hread := readOutput_fold lines ⟨attemptStart st name seek, t0, []⟩ hs
  have hcur : (readOutput (attemptStart st name seek) t0 lines).st.currentTime =
      (match lastTimeTok lines with | some t => seek + t | none => 0) := by
    show (lines.foldl readOutputStep ⟨attemptStart st name seek, t0, []⟩).st.currentTime = _
    rw [hread.2.2.2]
    cases lastTimeTok lines <;> rfl
  have hskip2 : (readOutput (attemptStart st name seek) t0 lines).st.skipRequested
      = false := by
    show (lines.foldl readOutputStep ⟨attemptStart st name seek, t0, []⟩).st.skipRequested = _
    rw [hread.2.1]
    exact hskip
  refine ⟨?_, ?_, hcur, ?_, ?_⟩
  · intro rs ln t h ht
    rw [readOutputStep_currentTime rs ln h, ht]
  · intro rs ln t h ht hsave
    exact (readOutputStep_saves rs ln t h ht hsave).1
  · rw [(classify_fail_resumePos cfg _ vr rp rc now env hskip2 hrc).1, hcur]
  · intro h0 hds cycles hall
    have h := crashCycles_accumulate cfg name t0 now rp vr rc env hrc h0 hds cycles
      st seek hrun hskip hall
    refine ⟨h.1, ?_⟩
    rw [h.1]
    have hsum : 0 ≤ (cycles.map (fun c => (lastTimeTok c).getD 0)).sum := by
      apply List.sum_nonneg
      intro x hx
      obtain ⟨c, hc, hcx⟩ := List.mem_map.mp hx
      cases h4 : lastTimeTok c with
      | some q =>
        rw [← hcx, h4]
        exact lastTimeTok_nonneg c q h4
      | none => rw [← hcx, h4]; simp
    linarith

/-- C10 counterexample: an attempt resumed from offset 100 whose process
crashes before emitting any telemetry line persists resume offset 0 —
the accumulated 100 seconds are lost, contradicting the claim's "never
lose the accumulated offset". -/
theorem C10_counterexample :
    (classify cfgDemo (readOutput (attemptStart stInit "a" 100) 0 []).st 0 100
        (some 1) 10000 envAllOk).resumePos = 0 ∧ (0 : ℚ) < 100 := by
  with_unfolding_all decide

/-- Concrete instance of `C10_absolute_position`: one attempt resumed at
offset 100 parses `time=00:00:20.00`, so `current_time` ends at 120 and
the persisted resume offset is 120; two such crash cycles starting at
100 accumulate to 140. -/
theorem C10_witness :
    (readOutput (attemptStart stInit "a" 100) 0
        [{ tim := some (0, 0, 20, 0), arrival := 12 }]).st.currentTime
      = 100 + hmsToSecs (0, 0, 20, 0) ∧
    (classify cfgDemo (readOutput (attemptStart stInit "a" 100) 0
        [{ tim := some (0, 0, 20, 0), arrival := 12 }]).st 0 0 (some 1) 10000
        envAllOk).resumePos = 100 + hmsToSecs (0, 0, 20, 0) ∧
    ([[({ tim := some (0, 0, 20, 0), arrival := 12 } : TLine)],
      [({ tim := some (0, 0, 20, 0), arrival := 12 } : TLine)]].foldl
        (crashCycle cfgDemo "a" 0 10000 0 0 1 envAllOk) (stInit, 100)).2
      = 100 + hmsToSecs (0, 0, 20, 0) + hmsToSecs (0, 0, 20, 0) := by
  have h := C10_absolute_position cfgDemo "a" stInit 0 10000 100 0 0 1 envAllOk
    [{ tim := some (0, 0, 20, 0), arrival := 12 }] rfl rfl (by decide)
  have hl : lastTimeTok [({ tim := some (0, 0, 20, 0), arrival := 12 } : TLine)]
      = some (hmsToSecs (0, 0, 20, 0)) := rfl
  have hcyc := h.2.2.2.2 rfl (by with_unfolding_all decide)
    [[({ tim := some (0, 0, 20, 0), arrival := 12 } : TLine)],
     [({ tim := some (0, 0, 20, 0), arrival := 12 } : TLine)]]
    (by intro c hc; simp at hc; simp [hc, hl])
  refine ⟨?_, ?_, ?_⟩
  · rw [h.2.2.1, hl]
  · rw [h.2.2.2.1, hl]
  · rw [hcyc.1]
    simp [hl]
    ring
